import Mathlib

/-!
Shallow embedding of the account-deletion router of the repository
(`src/unnamed/part_000`, an Express router over a Supabase row store) and of
the shared Supabase client module (`src/server/src/utils/supabaseClient.js`).

The row store is modelled as lists of rows per collection; a Supabase
`.delete()` call either reports an error (leaving the collection unchanged)
or removes exactly the rows matching its filter.  Whether a given call
errors is an input to the model (`FailureSchedule`), mirroring the fact
that the JavaScript code only inspects the `error` field the store returns.
-/

namespace Glitchcon

/-- A row of the `posts` collection: `user_id` is the owner; `pid` stands for
the remaining payload so that distinct rows are distinguishable. -/
structure Post where
  pid : Nat
  user_id : String
deriving DecidableEq, Repr

/-- A row of the `likes` collection. -/
structure Like where
  lid : Nat
  user_id : String
deriving DecidableEq, Repr

/-- A row of the `comments` collection. -/
structure Comment where
  cid : Nat
  user_id : String
deriving DecidableEq, Repr

/-- A row of the `bookmarks` collection. -/
structure Bookmark where
  bid : Nat
  user_id : String
deriving DecidableEq, Repr

/-- A row of the `subscribers` collection, with its two account roles. -/
structure Subscription where
  sid : Nat
  subscriber_id : String
  creator_id : String
deriving DecidableEq, Repr

/-- A row of the `users` collection (the Account entity). -/
structure Account where
  id : String
  username : String
  bio : String
deriving DecidableEq, Repr

/-- The full store state: the six primary collections the deletion workflow
touches, plus the external `auth.users` identity-credential records. -/
structure Store where
  posts : List Post
  likes : List Like
  comments : List Comment
  bookmarks : List Bookmark
  subscribers : List Subscription
  users : List Account
  authUsers : List String
deriving DecidableEq, Repr

/-- An error object returned by the dependent store (`error.message`). -/
structure DbError where
  message : String
deriving DecidableEq, Repr

/-- Which of the seven store calls of one workflow invocation report an
error.  The JavaScript code never inspects the store contents to decide
this; it only checks the `error` field each call returns, so the schedule
is an independent input. -/
structure FailureSchedule where
  postsErr : Option DbError
  likesErr : Option DbError
  commentsErr : Option DbError
  bookmarksErr : Option DbError
  subscribersErr : Option DbError
  userErr : Option DbError
  authErr : Bool
deriving DecidableEq, Repr

/-- The schedule on which every store call succeeds. -/
def noFailure : FailureSchedule :=
  ⟨none, none, none, none, none, none, false⟩

/-- An HTTP response: status code and JSON body as a key/value list. -/
structure HttpResponse where
  status : Nat
  body : List (String × String)
deriving DecidableEq, Repr

/-- One delete operation issued to the store, labelled with its filter
argument, in the order the route body issues them. -/
inductive DbOp where
  | deletePosts (uid : String)
  | deleteLikes (uid : String)
  | deleteComments (uid : String)
  | deleteBookmarks (uid : String)
  | deleteSubscribers (uid : String)
  | deleteUserRow (uid : String)
  | deleteAuthUser (uid : String)
deriving DecidableEq, Repr

/-- Result of one run of a route handler: the response sent, the final
store state, and the trace of store operations attempted, in order. -/
structure WorkflowResult where
  response : HttpResponse
  store : Store
  trace : List DbOp
deriving DecidableEq, Repr

/-- The 500 response of the `catch` block:
`res.status(500).json(\x7b message: "Error deleting account", error: error.message \x7d)`. -/
def errResponse (e : DbError) : HttpResponse :=
  ⟨500, [("message", "Error deleting account"), ("error", e.message)]⟩

/-- The 200 response: `res.json(\x7b message: "Account successfully deleted" \x7d)`. -/
def successResponse : HttpResponse :=
  ⟨200, [("message", "Account successfully deleted")]⟩

/-- The shared body of `the DELETE /profile route` (lines 257–340) and of
`the DELETE /:userId route` after its ownership check (lines 354–435):
seven delete calls in source order, aborting to the `catch` block on the
first error among steps 1–6, and swallowing any error of step 7. -/
def deleteAccountCore (userId : String) (sched : FailureSchedule) (s : Store) :
    WorkflowResult :=
  match sched.postsErr with
  | some e => ⟨errResponse e, s, [.deletePosts userId]⟩
  | none =>
  let s1 : Store := { s with posts := s.posts.filter (fun p => !(p.user_id == userId)) }
  match sched.likesErr with
  | some e => ⟨errResponse e, s1, [.deletePosts userId, .deleteLikes userId]⟩
  | none =>
  let s2 : Store := { s1 with likes := s1.likes.filter (fun l => !(l.user_id == userId)) }
  match sched.commentsErr with
  | some e => ⟨errResponse e, s2,
      [.deletePosts userId, .deleteLikes userId, .deleteComments userId]⟩
  | none =>
  let s3 : Store := { s2 with comments := s2.comments.filter (fun c => !(c.user_id == userId)) }
  match sched.bookmarksErr with
  | some e => ⟨errResponse e, s3,
      [.deletePosts userId, .deleteLikes userId, .deleteComments userId,
       .deleteBookmarks userId]⟩
  | none =>
  let s4 : Store := { s3 with bookmarks := s3.bookmarks.filter (fun b => !(b.user_id == userId)) }
  match sched.subscribersErr with
  | some e => ⟨errResponse e, s4,
      [.deletePosts userId, .deleteLikes userId, .deleteComments userId,
       .deleteBookmarks userId, .deleteSubscribers userId]⟩
  | none =>
  let s5 : Store :=
    { s4 with subscribers :=
        s4.subscribers.filter (fun r => !(r.subscriber_id == userId || r.creator_id == userId)) }
  match sched.userErr with
  | some e => ⟨errResponse e, s5,
      [.deletePosts userId, .deleteLikes userId, .deleteComments userId,
       .deleteBookmarks userId, .deleteSubscribers userId, .deleteUserRow userId]⟩
  | none =>
  let s6 : Store := { s5 with users := s5.users.filter (fun a => !(a.id == userId)) }
  let s7 : Store :=
    if sched.authErr then s6
    else
      { s6 with authUsers := s6.authUsers.filter (fun a => !(a == userId)) }
  ⟨successResponse, s7,
   [.deletePosts userId, .deleteLikes userId, .deleteComments userId,
    .deleteBookmarks userId, .deleteSubscribers userId, .deleteUserRow userId,
    .deleteAuthUser userId]⟩

/-- The decoded JWT payload placed on `req.user`: the handlers read
`req.user.userId || req.user.id`. -/
structure AuthUser where
  userId : Option String
  id : String
deriving DecidableEq, Repr

/-- `req.user.userId || req.user.id` with JavaScript truthiness: an absent
or empty `userId` falls through to `id`. -/
def AuthUser.effectiveId (u : AuthUser) : String :=
  match u.userId with
  | some t => if t = "" then u.id else t
  | none => u.id

/-- Handler body of `the DELETE /profile route` (lines 256–341): the target
is always the authenticated caller. -/
def profileDeleteHandler (u : AuthUser) (sched : FailureSchedule) (s : Store) :
    WorkflowResult :=
  deleteAccountCore u.effectiveId sched s

/-- Handler body of `the DELETE /:userId route` (lines 344–436): a 403 when
the path parameter differs from the authenticated caller, otherwise the
same deletion sequence. -/
def userIdDeleteHandler (paramUserId : String) (u : AuthUser)
    (sched : FailureSchedule) (s : Store) : WorkflowResult :=
  if paramUserId ≠ u.effectiveId then
    ⟨⟨403, [("message", "You can only delete your own account")]⟩, s, []⟩
  else
    deleteAccountCore paramUserId sched s

/-- The first error among the six primary delete steps, in source order:
the one the `catch` block surfaces when the workflow aborts. -/
def firstStepError (sched : FailureSchedule) : Option DbError :=
  match sched.postsErr with
  | some e => some e
  | none =>
  match sched.likesErr with
  | some e => some e
  | none =>
  match sched.commentsErr with
  | some e => some e
  | none =>
  match sched.bookmarksErr with
  | some e => some e
  | none =>
  match sched.subscribersErr with
  | some e => some e
  | none => sched.userErr

/-- The canonical operation order of one full run, as issued by the route
body: the six dependent-data deletions then the identity-credential
removal. -/
def fullTrace (userId : String) : List DbOp :=
  [.deletePosts userId, .deleteLikes userId, .deleteComments userId,
   .deleteBookmarks userId, .deleteSubscribers userId, .deleteUserRow userId,
   .deleteAuthUser userId]

/-- An incoming HTTP request as the middleware sees it: the
`authorization` header, which may be absent. -/
structure Request where
  authorization : Option String
deriving DecidableEq, Repr

/-- The JavaScript single-character split, over the character list of a
string: `"a b".split(space)` gives `["a", "b"]`, and empty segments are
kept, exactly as in JavaScript. -/
def splitChars (sep : Char) : List Char → List (List Char)
  | [] => [[]]
  | c :: cs =>
    match splitChars sep cs with
    | w :: ws => if c = sep then [] :: w :: ws else (c :: w) :: ws
    | [] => [[c]]

/-- Token extraction, `authHeader && authHeader.split(space)[1]`, with
JavaScript truthiness: an absent header, a header with no second
space-separated component, or an empty second component all leave no
token. -/
def extractToken (authHeader : Option String) : Option String :=
  match authHeader with
  | none => none
  | some h =>
    match (splitChars ' ' h.toList).get? 1 with
    | none => none
    | some t => if t = [] then none else some (String.mk t)

/-- Outcome of the `authenticateToken` middleware: either a response sent
without calling the route handler, or an authenticated `req.user`. -/
inductive AuthOutcome where
  | denied (resp : HttpResponse)
  | authed (user : AuthUser)
deriving DecidableEq, Repr

/-- The `authenticateToken` middleware (lines 11–26), parameterised by the
external `jwt.verify`: 401 when no token is present, 403 when verification
reports an error, otherwise it passes the decoded user on. -/
def authenticateToken (verify : String → Except String AuthUser)
    (req : Request) : AuthOutcome :=
  match extractToken req.authorization with
  | none => .denied ⟨401, [("message", "Access denied")]⟩
  | some t =>
    match verify t with
    | .error _ => .denied ⟨403, [("message", "Invalid token")]⟩
    | .ok u => .authed u

/-- The protected `DELETE /profile` route: middleware first, then the
handler body.  On denial the store is untouched and no operation is
issued. -/
def protectedProfileDelete (verify : String → Except String AuthUser)
    (req : Request) (sched : FailureSchedule) (s : Store) : WorkflowResult :=
  match authenticateToken verify req with
  | .denied r => ⟨r, s, []⟩
  | .authed u => profileDeleteHandler u sched s

/-- The protected `DELETE /:userId` route: middleware first, then the
handler body with the path parameter. -/
def protectedUserIdDelete (verify : String → Except String AuthUser)
    (paramUserId : String) (req : Request) (sched : FailureSchedule)
    (s : Store) : WorkflowResult :=
  match authenticateToken verify req with
  | .denied r => ⟨r, s, []⟩
  | .authed u => userIdDeleteHandler paramUserId u sched s

/-- The constructed Supabase client, holding the configuration it was
built from. -/
structure SupabaseClient where
  url : String
  key : String
deriving DecidableEq, Repr

/-- `createClient(supabaseUrl, supabaseKey)`. -/
def createClient (url key : String) : SupabaseClient := ⟨url, key⟩

/-- JavaScript truthiness of a `process.env` value: `undefined` and the
empty string are falsy. -/
def envTruthy : Option String → Bool
  | none => false
  | some s => !(s == "")

/-- Module load of `src/server/src/utils/supabaseClient.js`: reads the two
environment values, throws when either is falsy, otherwise exports the
client built from them. -/
def loadSupabaseClientModule (url key : Option String) :
    Except String SupabaseClient :=
  if !(envTruthy url) || !(envTruthy key) then
    Except.error "Missing Supabase credentials. Please check your environment variables."
  else
    Except.ok (createClient (url.getD "") (key.getD ""))

/-- The concrete scenario of the spec: `u1` owns 2 posts, 3 likes,
1 comment, 0 bookmarks, and is `subscriber_id` in one Subscription row;
a second account `u2` has data of its own. -/
def demoStore : Store :=
  ⟨[⟨1, "u1"⟩, ⟨2, "u1"⟩, ⟨3, "u2"⟩],
   [⟨1, "u1"⟩, ⟨2, "u1"⟩, ⟨3, "u1"⟩, ⟨4, "u2"⟩],
   [⟨1, "u1"⟩, ⟨2, "u2"⟩],
   [⟨1, "u2"⟩],
   [⟨1, "u1", "u2"⟩, ⟨2, "u2", "u3"⟩],
   [⟨"u1", "alice", "hi"⟩, ⟨"u2", "bob", "yo"⟩],
   ["u1", "u2"]⟩

/-- A concrete stand-in for `jwt.verify`: accepts exactly the token
`good`. -/
def demoVerify (t : String) : Except String AuthUser :=
  if t = "good" then .ok ⟨some "u1", "u1"⟩ else .error "invalid signature"

/-- Claim C1: if the deletion workflow for account `A` returns the 200
confirmation, the final store holds no Post, Like, Comment or Bookmark row
with `user_id = A`, no Subscription row with `subscriber_id = A` or
`creator_id = A`, and no Account row with `id = A`. -/
theorem success_removes_every_row_of_target (A : String)
    (sched : FailureSchedule) (s : Store)
    (h : (deleteAccountCore A sched s).response.status = 200) :
    (∀ p ∈ (deleteAccountCore A sched s).store.posts, p.user_id ≠ A) ∧
    (∀ l ∈ (deleteAccountCore A sched s).store.likes, l.user_id ≠ A) ∧
    (∀ c ∈ (deleteAccountCore A sched s).store.comments, c.user_id ≠ A) ∧
    (∀ b ∈ (deleteAccountCore A sched s).store.bookmarks, b.user_id ≠ A) ∧
    (∀ r ∈ (deleteAccountCore A sched s).store.subscribers,
       r.subscriber_id ≠ A ∧ r.creator_id ≠ A) ∧
    (∀ a ∈ (deleteAccountCore A sched s).store.users, a.id ≠ A) := by
  obtain ⟨pe, le, ce, be, se, ue, ae⟩ := sched
  cases pe <;> cases le <;> cases ce <;> cases be <;> cases se <;> cases ue <;>
    cases ae <;>
    simp_all [deleteAccountCore, errResponse, successResponse, List.mem_filter]

/-- Witness for C1 at the concrete demo scenario. -/
theorem success_removes_every_row_of_target_check :
    (deleteAccountCore "u1" noFailure demoStore).response.status = 200 ∧
    ∀ a ∈ (deleteAccountCore "u1" noFailure demoStore).store.users,
      a.id ≠ "u1" :=
  ⟨by decide,
   (success_removes_every_row_of_target "u1" noFailure demoStore
     (by decide)).2.2.2.2.2⟩

/-- Claim C2: invoking the DELETE /:userId handler for a target different
from the authenticated actor yields the 403 response, leaves the store
unchanged and issues no store operation. -/
theorem foreign_target_forbidden_no_deletion (target : String) (u : AuthUser)
    (sched : FailureSchedule) (s : Store) (h : target ≠ u.effectiveId) :
    userIdDeleteHandler target u sched s =
      ⟨⟨403, [("message", "You can only delete your own account")]⟩, s, []⟩ := by
  simp [userIdDeleteHandler, h]

/-- Witness for C2: `u2` tries to delete `u1`. -/
theorem foreign_target_forbidden_no_deletion_check :
    userIdDeleteHandler "u1" ⟨some "u2", "u2"⟩ noFailure demoStore =
      ⟨⟨403, [("message", "You can only delete your own account")]⟩,
       demoStore, []⟩ :=
  foreign_target_forbidden_no_deletion "u1" ⟨some "u2", "u2"⟩ noFailure
    demoStore (by decide)

/-- Claim C7: the DELETE /profile handler and the DELETE /:userId handler
invoked with the target equal to the actor produce identical results
(response, final store and operation trace). -/
theorem profile_and_userid_routes_equivalent (u : AuthUser)
    (sched : FailureSchedule) (s : Store) :
    profileDeleteHandler u sched s =
      userIdDeleteHandler u.effectiveId u sched s := by
  simp [profileDeleteHandler, userIdDeleteHandler]

/-- Claim C3: the first failing step among the six primary deletions aborts
the workflow with the 500 response carrying that error message; in the
step-3 case (steps 1 and 2 succeed, comments delete fails) the target
Posts and Likes are already deleted while Comments, Bookmarks,
Subscriptions, the Account row and the credential records are untouched,
and no later step is attempted. -/
theorem first_failed_step_aborts_with_500 (uid : String)
    (sched : FailureSchedule) (s : Store) (e : DbError)
    (h : firstStepError sched = some e) :
    (deleteAccountCore uid sched s).response = errResponse e ∧
    (errResponse e).status = 500 ∧
    (sched.postsErr = none → sched.likesErr = none →
     sched.commentsErr = some e →
      (deleteAccountCore uid sched s).store.posts =
          s.posts.filter (fun p => !(p.user_id == uid)) ∧
      (deleteAccountCore uid sched s).store.likes =
          s.likes.filter (fun l => !(l.user_id == uid)) ∧
      (deleteAccountCore uid sched s).store.comments = s.comments ∧
      (deleteAccountCore uid sched s).store.bookmarks = s.bookmarks ∧
      (deleteAccountCore uid sched s).store.subscribers = s.subscribers ∧
      (deleteAccountCore uid sched s).store.users = s.users ∧
      (deleteAccountCore uid sched s).store.authUsers = s.authUsers ∧
      (deleteAccountCore uid sched s).trace =
          [.deletePosts uid, .deleteLikes uid, .deleteComments uid]) := by
  obtain ⟨pe, le, ce, be, se, ue, ae⟩ := sched
  cases pe <;> cases le <;> cases ce <;> cases be <;> cases se <;> cases ue <;>
    simp_all [deleteAccountCore, firstStepError, errResponse]

/-- Witness for C3: steps 1 and 2 succeed, the comments delete fails. -/
theorem first_failed_step_aborts_with_500_check :
    (deleteAccountCore "u1"
        ⟨none, none, some ⟨"boom"⟩, none, none, none, false⟩
        demoStore).response = errResponse ⟨"boom"⟩ ∧
    (deleteAccountCore "u1"
        ⟨none, none, some ⟨"boom"⟩, none, none, none, false⟩
        demoStore).store.comments = demoStore.comments :=
  ⟨(first_failed_step_aborts_with_500 "u1"
      ⟨none, none, some ⟨"boom"⟩, none, none, none, false⟩
      demoStore ⟨"boom"⟩ rfl).1,
   ((first_failed_step_aborts_with_500 "u1"
      ⟨none, none, some ⟨"boom"⟩, none, none, none, false⟩
      demoStore ⟨"boom"⟩ rfl).2.2 rfl rfl rfl).2.2.1⟩

/-- Claim C4: the operation trace of every invocation is a prefix of the
fixed order Posts, Likes, Comments, Bookmarks, Subscriptions, Account row,
credential record; the trace is independent of the store contents (each
delete is issued unconditionally, with no existence check); and when no
primary step fails, all seven operations are issued in exactly that
order. -/
theorem deletions_issued_in_fixed_order (uid : String)
    (sched : FailureSchedule) (s : Store) :
    (∃ k, (deleteAccountCore uid sched s).trace = (fullTrace uid).take k) ∧
    (∀ s2, (deleteAccountCore uid sched s2).trace =
        (deleteAccountCore uid sched s).trace) ∧
    (firstStepError sched = none →
      (deleteAccountCore uid sched s).trace = fullTrace uid) := by
  obtain ⟨pe, le, ce, be, se, ue, ae⟩ := sched
  cases pe <;> cases le <;> cases ce <;> cases be <;> cases se <;> cases ue <;>
    refine ⟨?_, fun s2 => rfl, ?_⟩ <;>
    first
      | exact ⟨7, rfl⟩
      | exact ⟨6, rfl⟩
      | exact ⟨5, rfl⟩
      | exact ⟨4, rfl⟩
      | exact ⟨3, rfl⟩
      | exact ⟨2, rfl⟩
      | exact ⟨1, rfl⟩
      | simp [deleteAccountCore, firstStepError, fullTrace]

/-- Witness for C4 at the demo scenario with no failures. -/
theorem deletions_issued_in_fixed_order_check :
    (deleteAccountCore "u1" noFailure demoStore).trace = fullTrace "u1" :=
  (deletions_issued_in_fixed_order "u1" noFailure demoStore).2.2 rfl

/-- Claim C5: when the six primary steps succeed, a failure of the
best-effort credential deletion (step 7) does not change the outcome: the
response is status 200 with exactly the success payload. -/
theorem auth_delete_failure_still_success (uid : String)
    (sched : FailureSchedule) (s : Store)
    (h1 : firstStepError sched = none) (h2 : sched.authErr = true) :
    (deleteAccountCore uid sched s).response =
      ⟨200, [("message", "Account successfully deleted")]⟩ := by
  obtain ⟨pe, le, ce, be, se, ue, ae⟩ := sched
  cases pe <;> cases le <;> cases ce <;> cases be <;> cases se <;> cases ue <;>
    simp_all [deleteAccountCore, firstStepError, successResponse]

/-- Witness for C5: all primary steps succeed, the credential delete
throws. -/
theorem auth_delete_failure_still_success_check :
    (deleteAccountCore "u1" ⟨none, none, none, none, none, none, true⟩
        demoStore).response =
      ⟨200, [("message", "Account successfully deleted")]⟩ :=
  auth_delete_failure_still_success "u1"
    ⟨none, none, none, none, none, none, true⟩ demoStore rfl rfl

/-- Claim C6, counterexample: after a successful deletion of `u1`, running
the workflow again with a store that reports no error (deleting zero rows,
the Account row included, is not an error) returns the 200 success
response again — the second run is not a failure, contradicting the
claimed step-6 failure. -/
theorem second_run_is_success_not_failure :
    (deleteAccountCore "u1" noFailure
        (deleteAccountCore "u1" noFailure demoStore).store).response =
      successResponse ∧
    (deleteAccountCore "u1" noFailure
        (deleteAccountCore "u1" noFailure demoStore).store).response.status
      ≠ 500 := by decide

/-- Claim C6 as amended: re-running the workflow on an already-deleted
account has all six primary steps succeed vacuously (the store reports no
error on zero-row deletes, step 6 included), so the second run returns the
same 200 success and leaves the store exactly as the first run left it:
the workflow is idempotent at the primary-store level. -/
theorem second_run_succeeds_idempotently (uid : String)
    (sched : FailureSchedule) (s : Store)
    (h : firstStepError sched = none) :
    (deleteAccountCore uid sched
        (deleteAccountCore uid sched s).store).response = successResponse ∧
    (deleteAccountCore uid sched
        (deleteAccountCore uid sched s).store).store =
      (deleteAccountCore uid sched s).store := by
  obtain ⟨pe, le, ce, be, se, ue, ae⟩ := sched
  cases pe <;> cases le <;> cases ce <;> cases be <;> cases se <;> cases ue <;>
    simp_all [firstStepError] <;>
    cases ae <;>
    simp [deleteAccountCore, successResponse, List.filter_filter]

/-- Witness for the amended C6 at the concrete demo scenario. -/
theorem second_run_succeeds_idempotently_check :
    (deleteAccountCore "u1" noFailure
        (deleteAccountCore "u1" noFailure demoStore).store).store =
      (deleteAccountCore "u1" noFailure demoStore).store :=
  (second_run_succeeds_idempotently "u1" noFailure demoStore rfl).2

/-- Claim C8: on a protected deletion route, a missing bearer token yields
the 401 response and a token the verifier rejects yields the 403 response;
in both cases the handler body never runs: the store is unchanged and no
store operation is issued. -/
theorem auth_failure_blocks_workflow
    (verify : String → Except String AuthUser) (paramUserId : String)
    (req : Request) (sched : FailureSchedule) (s : Store) :
    (extractToken req.authorization = none →
      protectedProfileDelete verify req sched s =
        ⟨⟨401, [("message", "Access denied")]⟩, s, []⟩ ∧
      protectedUserIdDelete verify paramUserId req sched s =
        ⟨⟨401, [("message", "Access denied")]⟩, s, []⟩) ∧
    (∀ t e, extractToken req.authorization = some t → verify t = .error e →
      protectedProfileDelete verify req sched s =
        ⟨⟨403, [("message", "Invalid token")]⟩, s, []⟩ ∧
      protectedUserIdDelete verify paramUserId req sched s =
        ⟨⟨403, [("message", "Invalid token")]⟩, s, []⟩) := by
  constructor
  · intro h
    simp [protectedProfileDelete, protectedUserIdDelete, authenticateToken, h]
  · intro t e h1 h2
    simp [protectedProfileDelete, protectedUserIdDelete, authenticateToken,
      h1, h2]

/-- Witness for C8: a request with no authorization header gets 401; a
request whose token the verifier rejects gets 403; the store survives
both. -/
theorem auth_failure_blocks_workflow_check :
    protectedProfileDelete demoVerify ⟨none⟩ noFailure demoStore =
      ⟨⟨401, [("message", "Access denied")]⟩, demoStore, []⟩ ∧
    protectedUserIdDelete demoVerify "u1" ⟨some "Bearer bad"⟩ noFailure
        demoStore =
      ⟨⟨403, [("message", "Invalid token")]⟩, demoStore, []⟩ :=
  ⟨((auth_failure_blocks_workflow demoVerify "u1" ⟨none⟩ noFailure
      demoStore).1 rfl).1,
   ((auth_failure_blocks_workflow demoVerify "u1" ⟨some "Bearer bad"⟩
      noFailure demoStore).2 "bad" "invalid signature" (by decide) rfl).2⟩

/-- Claim C9: whether the workflow succeeds or aborts, every row not
referencing the target survives: Posts, Likes, Comments and Bookmarks of
other accounts, Subscriptions in which the target plays neither role, and
Account rows of other accounts are all still present afterwards. -/
theorem unrelated_rows_survive (T : String) (sched : FailureSchedule)
    (s : Store) :
    (∀ p ∈ s.posts, p.user_id ≠ T →
        p ∈ (deleteAccountCore T sched s).store.posts) ∧
    (∀ l ∈ s.likes, l.user_id ≠ T →
        l ∈ (deleteAccountCore T sched s).store.likes) ∧
    (∀ c ∈ s.comments, c.user_id ≠ T →
        c ∈ (deleteAccountCore T sched s).store.comments) ∧
    (∀ b ∈ s.bookmarks, b.user_id ≠ T →
        b ∈ (deleteAccountCore T sched s).store.bookmarks) ∧
    (∀ r ∈ s.subscribers, r.subscriber_id ≠ T → r.creator_id ≠ T →
        r ∈ (deleteAccountCore T sched s).store.subscribers) ∧
    (∀ a ∈ s.users, a.id ≠ T →
        a ∈ (deleteAccountCore T sched s).store.users) := by
  obtain ⟨pe, le, ce, be, se, ue, ae⟩ := sched
  cases pe <;> cases le <;> cases ce <;> cases be <;> cases se <;> cases ue <;>
    cases ae <;>
    simp_all [deleteAccountCore, List.mem_filter]

/-- Witness for C9: a `u2` post survives the deletion of `u1`. -/
theorem unrelated_rows_survive_check :
    (⟨3, "u2"⟩ : Post) ∈
      (deleteAccountCore "u1" noFailure demoStore).store.posts :=
  (unrelated_rows_survive "u1" noFailure demoStore).1 ⟨3, "u2"⟩ (by decide)
    (by decide)

/-- Claim C10: the shared Supabase client module throws at load time when
either environment value is absent, and any client it successfully exports
was constructed from two present (truthy) configuration values. -/
theorem client_module_requires_both_env_values (url key : Option String) :
    ((url = none ∨ key = none) →
      loadSupabaseClientModule url key =
        Except.error
          "Missing Supabase credentials. Please check your environment variables.") ∧
    (∀ c, loadSupabaseClientModule url key = Except.ok c →
      envTruthy url = true ∧ envTruthy key = true ∧
      c = createClient (url.getD "") (key.getD "")) := by
  constructor
  · intro h
    rcases h with h | h <;> subst h <;>
      simp [loadSupabaseClientModule, envTruthy]
  · intro c hc
    cases url with
    | none => simp [loadSupabaseClientModule, envTruthy] at hc
    | some u =>
      cases key with
      | none => simp [loadSupabaseClientModule, envTruthy] at hc
      | some k =>
        by_cases hu : u = "" <;> by_cases hk : k = "" <;>
          simp_all [loadSupabaseClientModule, envTruthy, createClient]

/-- Witness for C10: a missing service key makes the module load throw,
and a load that returns a client had both values present. -/
theorem client_module_requires_both_env_values_check :
    loadSupabaseClientModule (some "https://example.supabase.co") none =
      Except.error
        "Missing Supabase credentials. Please check your environment variables." ∧
    (envTruthy (some "https://example.supabase.co") = true ∧
     envTruthy (some "svc-key") = true ∧
     (⟨"https://example.supabase.co", "svc-key"⟩ : SupabaseClient) =
       createClient "https://example.supabase.co" "svc-key") :=
  ⟨(client_module_requires_both_env_values
      (some "https://example.supabase.co") none).1 (Or.inr rfl),
   (client_module_requires_both_env_values
      (some "https://example.supabase.co") (some "svc-key")).2
      ⟨"https://example.supabase.co", "svc-key"⟩ rfl⟩

end Glitchcon
